import Mathlib

/-!
Verification of the grade-aggregation and academic-progression engine of the
`copiaAnalisis` university backend.

The JavaScript source is shallowly embedded over exact rationals (ℚ).
JavaScript `number` arithmetic on the finite values reached by this code is
modelled exactly; the one non-finite value the code can actually produce,
`NaN` (from `parseFloat` applied to an unparseable score or weight), is
modelled explicitly by an `Option ℚ` layer where `none` is NaN and every
arithmetic operation involving NaN yields NaN, exactly as in JavaScript.

Source files embedded:
  * `app/services/calificacion.service.js`   (grade calculator, classifier,
    semester statistics, per-semester retrieval with validation)
  * `universidad_backend/app/services/validacion.service.js` (progression
    evaluator and recommendation generator)
-/

/-- A JavaScript value appearing in a `nota` (score) or `ponderacion` (weight)
field: `jnull` models `null`/`undefined`, `jval q` models a finite number or a
numeric string that `parseFloat` parses to the rational `q`, and `jinvalid`
models any other value, on which `parseFloat` returns `NaN`. -/
inductive JNum where
  | jnull : JNum
  | jval : ℚ → JNum
  | jinvalid : JNum
deriving DecidableEq, Repr

/-- `parseFloat` as used by the services: a parsed number for `jval`, and NaN
(`none`) otherwise (`parseFloat(null)` is also NaN in JavaScript). -/
def parseFloatJ : JNum → Option ℚ
  | JNum.jval q => some q
  | _ => none

/-- One record of the `calificaciones` table as consumed by the calculators:
`nota` (score) and `ponderacion` (weight).  Fields not used by any computation
(id, tipo_evaluacion, fecha_evaluacion, observaciones) are omitted. -/
structure Calificacion where
  nota : JNum
  ponderacion : JNum
deriving DecidableEq, Repr

/-- NaN-propagating addition on JavaScript numbers (`none` is NaN). -/
def nAdd : Option ℚ → Option ℚ → Option ℚ
  | some x, some y => some (x + y)
  | _, _ => none

/-- NaN-propagating multiplication.  (In JavaScript `NaN * 0` is `NaN`,
matching `none` here.) -/
def nMul : Option ℚ → Option ℚ → Option ℚ
  | some x, some y => some (x * y)
  | _, _ => none

/-- NaN-propagating division.  The services only ever divide by the literal
`100` or by a sum that a guard has checked to be nonzero, so the `y = 0`
branch (where JavaScript would produce an infinity) is unreachable. -/
def nDiv : Option ℚ → Option ℚ → Option ℚ
  | some x, some y => if y = 0 then none else some (x / y)
  | _, _ => none

/-- `Math.round(q * 100) / 100`: rounding to 2 decimal places.  JavaScript
`Math.round` rounds half toward positive infinity, i.e. `⌊x + 1/2⌋`. -/
def round2 (q : ℚ) : ℚ := ((⌊q * 100 + 1 / 2⌋ : ℤ) : ℚ) / 100

/-- Result type of `_calcularNotaFinal` (JavaScript `number | null`, where the
number can be NaN): `jnullF` is `null`, `nanF` is `NaN`, `valF q` a finite
grade. -/
inductive NotaFinal where
  | jnullF : NotaFinal
  | nanF : NotaFinal
  | valF : ℚ → NotaFinal
deriving DecidableEq, Repr

/-- `Math.round(x * 100) / 100` applied to a possibly-NaN value:
`Math.round(NaN)` is `NaN`. -/
def jsRound2 : Option ℚ → NotaFinal
  | none => NotaFinal.nanF
  | some q => NotaFinal.valF (round2 q)

/-- `CalificacionService._calcularNotaFinal`
(`app/services/calificacion.service.js`, lines 150-178).  Filters the records
whose `nota` is not `null`/`undefined`, accumulates
`sumaPonderada += parseFloat(nota) * parseFloat(ponderacion) / 100` and
`sumaPonderaciones += parseFloat(ponderacion)`, returns `null` on an empty
list, no scored record, or a zero weight sum, and otherwise
`Math.round(((sumaPonderada * 100) / sumaPonderaciones) * 100) / 100`.
`validacion.service.js` lines 165-189 contain the same function verbatim (its
filter omits the redundant `undefined` check, which `jnull` also covers). -/
def _calcularNotaFinal (calificaciones : List Calificacion) : NotaFinal :=
  if calificaciones = [] then NotaFinal.jnullF
  else
    let calificacionesConNota :=
      calificaciones.filter (fun cal => cal.nota ≠ JNum.jnull)
    if calificacionesConNota = [] then NotaFinal.jnullF
    else
      let sumaPonderada := calificacionesConNota.foldl
        (fun s cal =>
          nAdd s (nDiv (nMul (parseFloatJ cal.nota) (parseFloatJ cal.ponderacion)) (some 100)))
        (some 0)
      let sumaPonderaciones := calificacionesConNota.foldl
        (fun s cal => nAdd s (parseFloatJ cal.ponderacion)) (some 0)
      if sumaPonderaciones = some 0 then NotaFinal.jnullF
      else jsRound2 (nDiv (nMul sumaPonderada (some 100)) sumaPonderaciones)

/-- The record returned by `_determinarEstadoAprobacion`. -/
structure EstadoAprobacion where
  codigo : String
  descripcion : String
  aprobado : Bool
  color : String
deriving DecidableEq, Repr

/-- `CalificacionService._determinarEstadoAprobacion`
(`app/services/calificacion.service.js`, lines 186-211; identical in
`validacion.service.js` lines 197-222).  `null` maps to SIN_CALIFICAR;
otherwise `notaFinal >= 61` decides APROBADO against REPROBADO.  A NaN grade
is not `null`, and `NaN >= 61` is false in JavaScript, so NaN lands in the
REPROBADO branch. -/
def _determinarEstadoAprobacion (notaFinal : NotaFinal) : EstadoAprobacion :=
  match notaFinal with
  | NotaFinal.jnullF =>
      { codigo := "SIN_CALIFICAR", descripcion := "Sin Calificar"
        aprobado := false, color := "warning" }
  | NotaFinal.nanF =>
      { codigo := "REPROBADO", descripcion := "Reprobado"
        aprobado := false, color := "danger" }
  | NotaFinal.valF q =>
      if 61 ≤ q then
        { codigo := "APROBADO", descripcion := "Aprobado"
          aprobado := true, color := "success" }
      else
        { codigo := "REPROBADO", descripcion := "Reprobado"
          aprobado := false, color := "danger" }

/-! ### Specification-side grade calculator (from the spec's words, for C1) -/

/-- A well-formed evaluation as the spec's data model describes it: a score
that is either absent or a number, and a weight that is always a number. -/
def toCal (p : Option ℚ × ℚ) : Calificacion :=
  { nota := match p.1 with
      | none => JNum.jnull
      | some s => JNum.jval s
    ponderacion := JNum.jval p.2 }

/-- The score-bearing evaluations of a list, as (score, weight) pairs. -/
def scoreBearing (l : List (Option ℚ × ℚ)) : List (ℚ × ℚ) :=
  l.filterMap (fun p => p.1.map (fun s => (s, p.2)))

/-- Spec: `weightedSum = Σ score * weight / 100` over score-bearing
evaluations. -/
def weightedSumSpec (sb : List (ℚ × ℚ)) : ℚ :=
  (sb.map (fun p => p.1 * p.2 / 100)).sum

/-- Spec: `weightTotal = Σ weight` over score-bearing evaluations. -/
def weightTotalSpec (sb : List (ℚ × ℚ)) : ℚ :=
  (sb.map Prod.snd).sum

/-- `computeFinalGrade` exactly as the spec words it: absent when no
evaluation bears a score (which subsumes the empty list), absent when the
weight total is zero, and otherwise `(weightedSum * 100) / weightTotal`
rounded to 2 decimals. -/
def computeFinalGradeSpec (l : List (Option ℚ × ℚ)) : Option ℚ :=
  let sb := scoreBearing l
  if sb = [] then none
  else if weightTotalSpec sb = 0 then none
  else some (round2 (weightedSumSpec sb * 100 / weightTotalSpec sb))

/-- Inject an optional spec-level grade into the calculator's result type. -/
def notaOfOption : Option ℚ → NotaFinal
  | none => NotaFinal.jnullF
  | some q => NotaFinal.valF q

/-! ### Helper lemmas relating the embedded calculator to the spec-side one -/

lemma filter_map_toCal (l : List (Option ℚ × ℚ)) :
    (l.map toCal).filter (fun cal => cal.nota ≠ JNum.jnull)
      = (scoreBearing l).map (fun p => (⟨JNum.jval p.1, JNum.jval p.2⟩ : Calificacion)) := by
  induction l with
  | nil => simp [scoreBearing]
  | cons p t ih =>
      rcases p with ⟨s, w⟩
      cases s with
      | none => simpa [scoreBearing, toCal] using ih
      | some q => simpa [scoreBearing, toCal] using ih

lemma foldl_suma_ponderada (sb : List (ℚ × ℚ)) (init : ℚ) :
    ((sb.map (fun p => (⟨JNum.jval p.1, JNum.jval p.2⟩ : Calificacion))).foldl
        (fun s cal =>
          nAdd s (nDiv (nMul (parseFloatJ cal.nota) (parseFloatJ cal.ponderacion)) (some 100)))
        (some init))
      = some (init + weightedSumSpec sb) := by
  induction sb generalizing init with
  | nil => simp [weightedSumSpec]
  | cons p t ih =>
      have hstep : nAdd (some init)
          (nDiv (nMul (parseFloatJ (JNum.jval p.1)) (parseFloatJ (JNum.jval p.2))) (some 100))
            = some (init + p.1 * p.2 / 100) := by
        norm_num [nAdd, nMul, nDiv, parseFloatJ]
      simp only [List.map_cons, List.foldl_cons, hstep]
      rw [ih]
      simp only [weightedSumSpec, List.map_cons, List.sum_cons, Option.some.injEq]
      ring

lemma foldl_suma_ponderaciones (sb : List (ℚ × ℚ)) (init : ℚ) :
    ((sb.map (fun p => (⟨JNum.jval p.1, JNum.jval p.2⟩ : Calificacion))).foldl
        (fun s cal => nAdd s (parseFloatJ cal.ponderacion)) (some init))
      = some (init + weightTotalSpec sb) := by
  induction sb generalizing init with
  | nil => simp [weightTotalSpec]
  | cons p t ih =>
      have hstep : nAdd (some init) (parseFloatJ (JNum.jval p.2)) = some (init + p.2) := by
        norm_num [nAdd, parseFloatJ]
      simp only [List.map_cons, List.foldl_cons, hstep]
      rw [ih]
      simp only [weightTotalSpec, List.map_cons, List.sum_cons, Option.some.injEq]
      ring

/-- The embedded `_calcularNotaFinal`, applied to well-formed evaluations,
agrees with the spec-side `computeFinalGradeSpec` on every input. -/
lemma calcularNotaFinal_eq_spec (l : List (Option ℚ × ℚ)) :
    _calcularNotaFinal (l.map toCal) = notaOfOption (computeFinalGradeSpec l) := by
  unfold _calcularNotaFinal computeFinalGradeSpec
  by_cases hnil : l = []
  · subst hnil; simp [scoreBearing, notaOfOption]
  · have hmapnil : (l.map toCal = []) = False := by
      simp [List.map_eq_nil_iff, hnil]
    rw [filter_map_toCal]
    by_cases hsb : scoreBearing l = []
    · simp [hmapnil, hsb, notaOfOption]
    · have hsbmap : ((scoreBearing l).map
          (fun p => (⟨JNum.jval p.1, JNum.jval p.2⟩ : Calificacion)) = []) = False := by
        simp [List.map_eq_nil_iff, hsb]
      simp only [hmapnil, if_false, hsbmap, hsb,
        foldl_suma_ponderada, foldl_suma_ponderaciones, zero_add]
      by_cases hwt : weightTotalSpec (scoreBearing l) = 0
      · simp [hwt, notaOfOption]
      · have hwt' : (some (weightTotalSpec (scoreBearing l)) = some (0 : ℚ)) = False := by
          simp [hwt]
        simp [hwt', hwt, nMul, nDiv, jsRound2, notaOfOption, mul_comm]

/-- C1.  `computeFinalGrade` (the source's `_calcularNotaFinal`) returns
absent when the list is empty or no evaluation has a present score, absent
when the weight total over score-bearing evaluations is zero, and otherwise
`(weightedSum * 100) / weightTotal` rounded to 2 decimal places, skipping
score-less evaluations entirely — i.e. it coincides with the spec-side
`computeFinalGradeSpec` on every well-formed evaluation list. -/
theorem calcularNotaFinal_correcto (l : List (Option ℚ × ℚ)) :
    _calcularNotaFinal (l.map toCal) = notaOfOption (computeFinalGradeSpec l) :=
  calcularNotaFinal_eq_spec l

/-- C2.  The approval classifier maps `null` to SIN_CALIFICAR (not passed),
any grade `≥ 61` to APROBADO (passed) and any grade `< 61` to REPROBADO (not
passed); the threshold is inclusive at 61, as the instances 61 and 60.99
witness. -/
theorem determinarEstadoAprobacion_correcto :
    (_determinarEstadoAprobacion NotaFinal.jnullF
        = ⟨"SIN_CALIFICAR", "Sin Calificar", false, "warning"⟩)
    ∧ (∀ q : ℚ, _determinarEstadoAprobacion (NotaFinal.valF q)
        = if 61 ≤ q then ⟨"APROBADO", "Aprobado", true, "success"⟩
          else ⟨"REPROBADO", "Reprobado", false, "danger"⟩)
    ∧ (_determinarEstadoAprobacion (NotaFinal.valF 61)
        = ⟨"APROBADO", "Aprobado", true, "success"⟩)
    ∧ (_determinarEstadoAprobacion (NotaFinal.valF (6099 / 100))
        = ⟨"REPROBADO", "Reprobado", false, "danger"⟩) := by
  refine ⟨rfl, fun q => rfl, ?_, ?_⟩
  · norm_num [_determinarEstadoAprobacion]
  · norm_num [_determinarEstadoAprobacion]

/-- C6.  The calculator rounds to 2 decimal places with round-half-up
semantics: every value landing exactly on a `0.005` boundary rounds upward,
and in particular a final grade computed as `85.555` comes out as `85.56`. -/
theorem redondeoHalfUp_correcto :
    (∀ k : ℤ, round2 ((2 * k + 1) / 200) = (k + 1) / 100)
    ∧ _calcularNotaFinal [⟨JNum.jval (17111 / 200), JNum.jval 100⟩]
        = NotaFinal.valF (8556 / 100) := by
  constructor
  · intro k
    have h : ((2 * (k : ℚ) + 1) / 200) * 100 + 1 / 2 = ((k + 1 : ℤ) : ℚ) := by
      push_cast; ring
    rw [round2, h, Int.floor_intCast]
    push_cast; ring
  · simp [_calcularNotaFinal, parseFloatJ, nAdd, nMul, nDiv, jsRound2, round2]
    norm_num

/-- C7 counterexample.  An unparseable score value is *not* skipped: it
passes the `null` filter, `parseFloat` turns it into NaN, and the NaN
propagates into the returned grade.  Had the evaluation been skipped, the
result would have been the grade of the remaining evaluation, 80. -/
theorem calcularNotaFinal_nan_contraejemplo :
    _calcularNotaFinal [⟨JNum.jinvalid, JNum.jval 50⟩, ⟨JNum.jval 80, JNum.jval 50⟩]
      = NotaFinal.nanF
    ∧ _calcularNotaFinal [⟨JNum.jval 80, JNum.jval 50⟩] = NotaFinal.valF 80 := by
  constructor
  · simp [_calcularNotaFinal, parseFloatJ, nAdd, nMul, nDiv, jsRound2]
  · simp [_calcularNotaFinal, parseFloatJ, nAdd, nMul, nDiv, jsRound2, round2]
    norm_num

lemma foldl_nAdd_isSome {α : Type} (g : α → Option ℚ) (xs : List α)
    (h : ∀ x ∈ xs, (g x).isSome) (a : ℚ) :
    (xs.foldl (fun s x => nAdd s (g x)) (some a)).isSome := by
  induction xs generalizing a with
  | nil => simp
  | cons x t ih =>
      obtain ⟨v, hv⟩ := Option.isSome_iff_exists.mp (h x (by simp))
      simp only [List.foldl_cons, hv, nAdd]
      exact ih (fun y hy => h y (by simp [hy])) _

/-- C7 amended.  The calculator coerces numeric and numeric-string scores and
weights to numbers before arithmetic and never crashes; evaluations with a
`null` score are skipped; but an unparseable score or weight propagates as
NaN into the result.  When every evaluation's score is `null` or parseable
and every weight is parseable, the result is never NaN. -/
theorem calcularNotaFinal_sinNaN (l : List Calificacion)
    (h : ∀ cal ∈ l, cal.nota ≠ JNum.jinvalid ∧ ∃ w, cal.ponderacion = JNum.jval w) :
    _calcularNotaFinal l ≠ NotaFinal.nanF := by
  unfold _calcularNotaFinal
  by_cases hnil : l = []
  · simp [hnil]
  · simp only [hnil, if_false]
    set conNota := l.filter (fun cal => cal.nota ≠ JNum.jnull) with hcn
    by_cases hcnil : conNota = []
    · simp [hcnil]
    · simp only [hcnil, if_false]
      have hall : ∀ cal ∈ conNota, cal.nota ≠ JNum.jinvalid ∧ cal.nota ≠ JNum.jnull
          ∧ ∃ w, cal.ponderacion = JNum.jval w := by
        intro cal hc
        have hmem := List.mem_of_mem_filter hc
        have hflt := List.of_mem_filter hc
        refine ⟨(h cal hmem).1, ?_, (h cal hmem).2⟩
        simpa using hflt
      have hsp : (conNota.foldl
          (fun s cal =>
            nAdd s (nDiv (nMul (parseFloatJ cal.nota) (parseFloatJ cal.ponderacion)) (some 100)))
          (some 0)).isSome := by
        refine foldl_nAdd_isSome _ _ ?_ 0
        intro cal hc
        obtain ⟨hinv, hnull, w, hw⟩ := hall cal hc
        have : ∃ s, cal.nota = JNum.jval s := by
          cases hn : cal.nota with
          | jnull => exact absurd hn hnull
          | jinvalid => exact absurd hn hinv
          | jval q => exact ⟨q, rfl⟩
        obtain ⟨s, hs⟩ := this
        have h100 : ((100 : ℚ) = 0) = False := by norm_num
        simp [hs, hw, parseFloatJ, nMul, nDiv, h100]
      have hsw : (conNota.foldl
          (fun s cal => nAdd s (parseFloatJ cal.ponderacion)) (some 0)).isSome := by
        refine foldl_nAdd_isSome _ _ ?_ 0
        intro cal hc
        obtain ⟨-, -, w, hw⟩ := hall cal hc
        simp [hw, parseFloatJ]
      obtain ⟨sp, hspv⟩ := Option.isSome_iff_exists.mp hsp
      obtain ⟨sw, hswv⟩ := Option.isSome_iff_exists.mp hsw
      rw [hspv, hswv]
      by_cases hz : sw = 0
      · simp [hz]
      · have hz' : (some sw = some (0 : ℚ)) = False := by simp [hz]
        simp [hz', hz, nMul, nDiv, jsRound2]

/-- C7 amended, witness: a fully parseable list, for which the theorem rules
out a NaN result. -/
theorem calcularNotaFinal_sinNaN_testigo :
    _calcularNotaFinal [⟨JNum.jval 90, JNum.jval 50⟩] ≠ NotaFinal.nanF :=
  calcularNotaFinal_sinNaN [⟨JNum.jval 90, JNum.jval 50⟩] (by
    intro cal hc
    simp only [List.mem_singleton] at hc
    subst hc
    exact ⟨by simp, 50, rfl⟩)

lemma scoreBearing_all_present (l : List (ℚ × ℚ)) :
    scoreBearing (l.map (fun p => (some p.1, p.2))) = l := by
  induction l with
  | nil => simp [scoreBearing]
  | cons p t ih => simpa [scoreBearing] using ih

/-- C8.  When every evaluation has a present score and the weights sum to
exactly 100, the final grade is the plain weighted sum `Σ score * weight /
100` rounded to 2 decimals — renormalization has no effect. -/
theorem calcularNotaFinal_pesos100 (l : List (ℚ × ℚ))
    (h : (l.map Prod.snd).sum = 100) :
    _calcularNotaFinal ((l.map (fun p => (some p.1, p.2))).map toCal)
      = NotaFinal.valF (round2 ((l.map (fun p => p.1 * p.2 / 100)).sum)) := by
  rw [calcularNotaFinal_eq_spec]
  have hsb : scoreBearing (l.map (fun p => (some p.1, p.2))) = l :=
    scoreBearing_all_present l
  have hwt : weightTotalSpec l = 100 := by simpa [weightTotalSpec] using h
  have hlnil : l ≠ [] := by
    intro hl
    rw [hl] at hwt
    simp [weightTotalSpec] at hwt
  unfold computeFinalGradeSpec
  rw [hsb]
  have hlnil' : (l = []) = False := by simp [hlnil]
  have hwt0 : (weightTotalSpec l = 0) = False := by simp [hwt]
  simp only [hlnil', hwt0, if_false, hwt, notaOfOption]
  have : weightedSumSpec l * 100 / 100 = weightedSumSpec l := by
    field_simp
  rw [this]
  rfl

/-- C8 witness: two evaluations of weight 50 each with scores 90 and 80 give
the plain weighted sum 85. -/
theorem calcularNotaFinal_pesos100_testigo :
    _calcularNotaFinal (([((90 : ℚ), (50 : ℚ)), (80, 50)].map
        (fun p => (some p.1, p.2))).map toCal)
      = NotaFinal.valF 85 := by
  have h := calcularNotaFinal_pesos100 [((90 : ℚ), (50 : ℚ)), (80, 50)] (by norm_num)
  rw [h]
  norm_num [round2]

/-! ### Semester statistics (`_calcularEstadisticasGenerales`) -/

/-- The course fields the statistics read (`curso.creditos`); id, codigo and
nombre are display-only and omitted. -/
structure CursoInfo where
  creditos : ℚ
deriving DecidableEq, Repr

/-- One entry of `cursosConCalificaciones` as built at
`calificacion.service.js` lines 80-99: the resolved course, the computed
final grade and its approval state.  Display-only fields are omitted. -/
structure CursoConCalificaciones where
  curso : CursoInfo
  notaFinal : NotaFinal
  estado : EstadoAprobacion
deriving DecidableEq, Repr

/-- One enrollment as the service consumes it: the course's credit count and
the list of its grade records. -/
structure Inscripcion where
  creditos : ℚ
  calificaciones : List Calificacion
deriving DecidableEq, Repr

/-- The per-enrollment processing of `obtenerCalificacionesPorSemestre`
(lines 71-101): compute the final grade and classify it. -/
def procesarInscripcion (i : Inscripcion) : CursoConCalificaciones :=
  let notaFinal := _calcularNotaFinal i.calificaciones
  { curso := { creditos := i.creditos }, notaFinal := notaFinal
    estado := _determinarEstadoAprobacion notaFinal }

/-- A non-`null` final grade as a JavaScript number (`none` is NaN).  Inside
the statistics loop the grade has already passed the `!== null` filter, so
the `jnullF` case is unreachable there. -/
def notaToNum : NotaFinal → Option ℚ
  | NotaFinal.valF q => some q
  | _ => none

/-- The record returned by `_calcularEstadisticasGenerales`. -/
structure Estadisticas where
  totalCursos : ℕ
  cursosCalificados : ℕ
  cursosAprobados : ℕ
  cursosReprobados : ℕ
  promedioGeneral : NotaFinal
  creditosTotales : ℚ
  creditosAprobados : ℚ
deriving DecidableEq, Repr

/-- `CalificacionService._calcularEstadisticasGenerales`
(`app/services/calificacion.service.js`, lines 219-262).  The source's
`forEach` loop updates three independent accumulators
(`sumaNotasPonderadas`, `creditosTotales`, `creditosAprobados`); each is
modelled as its own fold.  The loop-local `creditosTotales` (over graded
courses only, used for the average) shadows the returned `creditosTotales`
(a `reduce` over all courses); the local one is named
`creditosTotalesConNota` here. -/
def _calcularEstadisticasGenerales
    (cursosConCalificaciones : List CursoConCalificaciones) : Estadisticas :=
  let cursosConNota :=
    cursosConCalificaciones.filter (fun curso => curso.notaFinal ≠ NotaFinal.jnullF)
  if cursosConNota = [] then
    { totalCursos := cursosConCalificaciones.length
      cursosCalificados := 0
      cursosAprobados := 0
      cursosReprobados := 0
      promedioGeneral := NotaFinal.jnullF
      creditosTotales :=
        cursosConCalificaciones.foldl (fun sum curso => sum + curso.curso.creditos) 0
      creditosAprobados := 0 }
  else
    let cursosAprobados := cursosConNota.filter (fun curso => curso.estado.aprobado)
    let cursosReprobados := cursosConNota.filter (fun curso => !curso.estado.aprobado)
    let sumaNotasPonderadas := cursosConNota.foldl
      (fun s curso => nAdd s (nMul (notaToNum curso.notaFinal) (some curso.curso.creditos)))
      (some 0)
    let creditosTotalesConNota :=
      cursosConNota.foldl (fun s curso => s + curso.curso.creditos) 0
    let creditosAprobadosSum := cursosConNota.foldl
      (fun s curso => if curso.estado.aprobado then s + curso.curso.creditos else s) 0
    let promedioGeneral :=
      if 0 < creditosTotalesConNota then nDiv sumaNotasPonderadas (some creditosTotalesConNota)
      else some 0
    { totalCursos := cursosConCalificaciones.length
      cursosCalificados := cursosConNota.length
      cursosAprobados := cursosAprobados.length
      cursosReprobados := cursosReprobados.length
      promedioGeneral := jsRound2 promedioGeneral
      creditosTotales :=
        cursosConCalificaciones.foldl (fun sum curso => sum + curso.curso.creditos) 0
      creditosAprobados := creditosAprobadosSum }

/-! ### Specification-side semester aggregation (for C3) -/

/-- A spec-level enrollment: credit count and well-formed evaluations. -/
def toInscripcion (e : ℚ × List (Option ℚ × ℚ)) : Inscripcion :=
  { creditos := e.1, calificaciones := e.2.map toCal }

/-- The spec-level final grade of an enrollment. -/
def gradeOfSpec (e : ℚ × List (Option ℚ × ℚ)) : Option ℚ :=
  computeFinalGradeSpec e.2

/-- Spec-level approval: graded and at or above the 61 threshold. -/
def isPassedSpec (e : ℚ × List (Option ℚ × ℚ)) : Bool :=
  match gradeOfSpec e with
  | some g => decide (61 ≤ g)
  | none => false

/-- The semester summary exactly as claim C3 words it: counts over all /
graded / passed / failed enrollments, credit totals over all and over passed
enrollments, and the credit-weighted average over graded enrollments
(absent when none is graded). -/
def semesterStatsSpec (l : List (ℚ × List (Option ℚ × ℚ))) : Estadisticas :=
  let graded := l.filter (fun e => (gradeOfSpec e).isSome)
  { totalCursos := l.length
    cursosCalificados := graded.length
    cursosAprobados := (graded.filter isPassedSpec).length
    cursosReprobados := (graded.filter (fun e => !isPassedSpec e)).length
    promedioGeneral :=
      if graded = [] then NotaFinal.jnullF
      else NotaFinal.valF (round2
        ((graded.map (fun e => (gradeOfSpec e).getD 0 * e.1)).sum
          / (graded.map Prod.fst).sum))
    creditosTotales := (l.map Prod.fst).sum
    creditosAprobados := ((graded.filter isPassedSpec).map Prod.fst).sum }

/-- The whole per-enrollment pipeline on spec-level data. -/
def procesarPar (e : ℚ × List (Option ℚ × ℚ)) : CursoConCalificaciones :=
  procesarInscripcion (toInscripcion e)

lemma procesarPar_notaFinal (e : ℚ × List (Option ℚ × ℚ)) :
    (procesarPar e).notaFinal = notaOfOption (gradeOfSpec e) :=
  calcularNotaFinal_eq_spec e.2

lemma procesarPar_aprobado (e : ℚ × List (Option ℚ × ℚ)) :
    (procesarPar e).estado.aprobado = isPassedSpec e := by
  have h : (procesarPar e).estado
      = _determinarEstadoAprobacion (notaOfOption (gradeOfSpec e)) := by
    unfold procesarPar procesarInscripcion
    simp only [toInscripcion]
    rw [calcularNotaFinal_eq_spec e.2]
    rfl
  rw [h]
  cases hg : gradeOfSpec e with
  | none => simp [notaOfOption, _determinarEstadoAprobacion, isPassedSpec, hg]
  | some g =>
      by_cases h61 : 61 ≤ g <;>
        simp [notaOfOption, _determinarEstadoAprobacion, isPassedSpec, hg, h61]

lemma procesarPar_creditos (e : ℚ × List (Option ℚ × ℚ)) :
    (procesarPar e).curso.creditos = e.1 := rfl

lemma foldl_add_eq {α : Type} (g : α → ℚ) (L : List α) (init : ℚ) :
    L.foldl (fun s a => s + g a) init = init + (L.map g).sum := by
  induction L generalizing init with
  | nil => simp
  | cons x t ih => rw [List.foldl_cons, ih]; simp; ring

lemma foldl_add_if_eq {α : Type} (p : α → Bool) (g : α → ℚ) (L : List α) (init : ℚ) :
    L.foldl (fun s a => if p a then s + g a else s) init
      = init + ((L.filter p).map g).sum := by
  induction L generalizing init with
  | nil => simp
  | cons x t ih =>
      rw [List.foldl_cons]
      cases hp : p x with
      | false => rw [if_neg (by simp [hp]), ih]; simp [List.filter_cons, hp]
      | true => rw [if_pos (by simp [hp]), ih]; simp [List.filter_cons, hp]; ring

lemma foldl_nAdd_notas (L : List (ℚ × List (Option ℚ × ℚ)))
    (h : ∀ e ∈ L, (gradeOfSpec e).isSome) (init : ℚ) :
    ((L.map procesarPar).foldl
        (fun s curso => nAdd s (nMul (notaToNum curso.notaFinal) (some curso.curso.creditos)))
        (some init))
      = some (init + (L.map (fun e => (gradeOfSpec e).getD 0 * e.1)).sum) := by
  induction L generalizing init with
  | nil => simp
  | cons e t ih =>
      obtain ⟨g, hg⟩ := Option.isSome_iff_exists.mp (h e (by simp))
      have hnf : (procesarPar e).notaFinal = NotaFinal.valF g := by
        rw [procesarPar_notaFinal, hg]; rfl
      have hstep : nAdd (some init)
          (nMul (notaToNum (procesarPar e).notaFinal) (some (procesarPar e).curso.creditos))
            = some (init + g * e.1) := by
        rw [hnf, procesarPar_creditos]; simp [notaToNum, nMul, nAdd]
      simp only [List.map_cons, List.foldl_cons, hstep]
      rw [ih (fun x hx => h x (by simp [hx]))]
      simp [hg]
      ring

lemma creditos_fold (L : List (ℚ × List (Option ℚ × ℚ))) (init : ℚ) :
    (L.map procesarPar).foldl (fun s curso => s + curso.curso.creditos) init
      = init + (L.map Prod.fst).sum := by
  rw [foldl_add_eq, List.map_map]
  have : (fun curso => curso.curso.creditos) ∘ procesarPar
      = (Prod.fst : ℚ × List (Option ℚ × ℚ) → ℚ) := by
    funext e; rfl
  rw [this]

lemma filter_graded (l : List (ℚ × List (Option ℚ × ℚ))) :
    (l.map procesarPar).filter (fun curso => curso.notaFinal ≠ NotaFinal.jnullF)
      = (l.filter (fun e => (gradeOfSpec e).isSome)).map procesarPar := by
  rw [List.map_filter]
  congr 1
  apply List.filter_congr
  intro e _
  simp only [Function.comp_apply, procesarPar_notaFinal]
  cases gradeOfSpec e <;> simp [notaOfOption]

lemma filter_aprobados (L : List (ℚ × List (Option ℚ × ℚ))) :
    (L.map procesarPar).filter (fun curso => curso.estado.aprobado)
      = (L.filter isPassedSpec).map procesarPar := by
  rw [List.map_filter]
  congr 1
  apply List.filter_congr
  intro e _
  simp only [Function.comp_apply, procesarPar_aprobado]

lemma filter_reprobados (L : List (ℚ × List (Option ℚ × ℚ))) :
    (L.map procesarPar).filter (fun curso => !curso.estado.aprobado)
      = (L.filter (fun e => !isPassedSpec e)).map procesarPar := by
  rw [List.map_filter]
  congr 1
  apply List.filter_congr
  intro e _
  simp only [Function.comp_apply, procesarPar_aprobado]

/-- C3.  The semester statistics agree with the spec-level summary on every
list of enrollments with positive credit counts: `totalCursos` counts all
enrollments, `cursosCalificados` the graded ones, `cursosAprobados` and
`cursosReprobados` split the graded ones by approval, `creditosTotales` sums
credits over all enrollments, `creditosAprobados` over passed ones, and
`promedioGeneral` is the credit-weighted average over graded enrollments
rounded to 2 decimals, absent when nothing is graded. -/
theorem estadisticasSemestre_correcto (l : List (ℚ × List (Option ℚ × ℚ)))
    (hpos : ∀ e ∈ l, 0 < e.1) :
    _calcularEstadisticasGenerales ((l.map toInscripcion).map procesarInscripcion)
      = semesterStatsSpec l := by
  have hmm : (l.map toInscripcion).map procesarInscripcion = l.map procesarPar := by
    rw [List.map_map]; rfl
  rw [hmm]
  simp only [_calcularEstadisticasGenerales, semesterStatsSpec, filter_graded]
  set graded := l.filter (fun e => (gradeOfSpec e).isSome) with hgr
  have hgmem : ∀ e ∈ graded, (gradeOfSpec e).isSome := by
    intro e he
    rw [hgr] at he
    exact (List.mem_filter.mp he).2
  by_cases hgnil : graded = []
  · have hct := creditos_fold l 0
    simp only [zero_add] at hct
    simp [hgnil, hct]
  · have hmapnil : (graded.map procesarPar = []) = False := by
      simp [List.map_eq_nil_iff, hgnil]
    simp only [hmapnil, if_false, hgnil]
    rw [filter_aprobados, filter_reprobados,
      foldl_nAdd_notas graded hgmem 0, creditos_fold graded 0, creditos_fold l 0,
      foldl_add_if_eq]
    rw [filter_aprobados]
    have hcpos : 0 < (graded.map Prod.fst).sum := by
      apply List.sum_pos
      · intro x hx
        obtain ⟨e, he, rfl⟩ := List.mem_map.mp hx
        exact hpos e (List.mem_of_mem_filter he)
      · simp [List.map_eq_nil_iff, hgnil]
    simp only [zero_add, if_pos hcpos]
    have hdiv : nDiv (some ((graded.map (fun e => (gradeOfSpec e).getD 0 * e.1)).sum))
        (some ((graded.map Prod.fst).sum))
          = some ((graded.map (fun e => (gradeOfSpec e).getD 0 * e.1)).sum
              / (graded.map Prod.fst).sum) := by
      simp [nDiv, ne_of_gt hcpos]
    rw [hdiv]
    simp only [jsRound2, List.length_map, List.map_map]
    have hcred : (fun curso => curso.curso.creditos) ∘ procesarPar
        = (Prod.fst : ℚ × List (Option ℚ × ℚ) → ℚ) := by
      funext e; rfl
    rw [hcred]

/-- C3 witness: one term with Course A (4 credits, scores 90 and 80 at weight
50 each) and Course B (3 credits, no evaluations) yields 2 courses, 1 graded,
1 passed, 0 failed, average 85, 7 total credits and 4 passed credits. -/
theorem estadisticasSemestre_testigo :
    _calcularEstadisticasGenerales
        (([((4 : ℚ), [(some (90 : ℚ), (50 : ℚ)), (some 80, 50)]), (3, [])].map toInscripcion).map
          procesarInscripcion)
      = { totalCursos := 2, cursosCalificados := 1, cursosAprobados := 1, cursosReprobados := 0
          promedioGeneral := NotaFinal.valF 85, creditosTotales := 7, creditosAprobados := 4 } := by
  rw [estadisticasSemestre_correcto _ (by
    intro e he
    simp only [List.mem_cons, List.mem_singleton, List.not_mem_nil, or_false] at he
    rcases he with rfl | rfl <;> norm_num)]
  have h1 : computeFinalGradeSpec [(some (90 : ℚ), (50 : ℚ)), (some 80, 50)] = some 85 := by
    simp [computeFinalGradeSpec, scoreBearing, weightedSumSpec, weightTotalSpec, List.filterMap]
    norm_num [round2]
  have h2 : computeFinalGradeSpec ([] : List (Option ℚ × ℚ)) = none := by
    simp [computeFinalGradeSpec, scoreBearing]
  simp [semesterStatsSpec, gradeOfSpec, isPassedSpec, h1, h2, List.filter]
  norm_num [round2]

/-! ### Progression evaluator (`validacion.service.js`) -/

/-- One alert pushed by `_validarProgresionAcademica` (lines 294-317).  The
source builds interpolated strings; the model keeps the alert's category, the
semester's descriptive label and the interpolated datum, eliding locale
number formatting (a cosmetic collaborator per the spec).  The recommendation
generator's substring tests `includes('Carga académica baja')` and
`includes('Bajo porcentaje')` correspond exactly to the `cargaBaja` and
`bajoPorcentaje` categories: each template text occurs in no other alert
string and cannot occur in a semester label of the form
`"<n>° Semestre <año>"`. -/
inductive Alerta where
  | cargaBaja : String → ℚ → Alerta
  | reprobados : String → ℕ → Alerta
  | bajoPorcentaje : String → ℚ → Alerta
deriving DecidableEq, Repr

/-- Category test modelling `a.includes('Carga académica baja')`. -/
def Alerta.esCargaBaja : Alerta → Bool
  | Alerta.cargaBaja _ _ => true
  | _ => false

/-- Category test for failed-courses alerts. -/
def Alerta.esReprobados : Alerta → Bool
  | Alerta.reprobados _ _ => true
  | _ => false

/-- Category test modelling `a.includes('Bajo porcentaje')`. -/
def Alerta.esBajoPorcentaje : Alerta → Bool
  | Alerta.bajoPorcentaje _ _ => true
  | _ => false

/-- The semester label interpolated at the front of every alert string. -/
def Alerta.etiqueta : Alerta → String
  | Alerta.cargaBaja d _ => d
  | Alerta.reprobados d _ => d
  | Alerta.bajoPorcentaje d _ => d

/-- One entry of a semester group's `cursos` array as built by
`_agruparCursosPorSemestre` (lines 134-147), with the fields the progression
evaluator reads: `curso.creditos`, `notaFinal` and `validado`. -/
structure CursoAgrupado where
  curso : CursoInfo
  notaFinal : NotaFinal
  validado : Bool
deriving DecidableEq, Repr

/-- One semester group: its descriptive label (`semestre.descripcion`, of the
form `"<n>° Semestre <año>"`) and its courses. -/
structure SemestreGrupo where
  descripcion : String
  cursos : List CursoAgrupado
deriving DecidableEq, Repr

/-- `cursosAprobados` of one semester (line 296): courses with `validado`. -/
def aprobadosDe (s : SemestreGrupo) : ℕ :=
  (s.cursos.filter (fun c => c.validado)).length

/-- `cursosReprobados` of one semester (line 297):
`c.notaFinal !== null && !c.validado`. -/
def reprobadosDe (s : SemestreGrupo) : ℕ :=
  (s.cursos.filter (fun c => decide (c.notaFinal ≠ NotaFinal.jnullF) && !c.validado)).length

/-- `creditosSemestre` of one semester (line 298): a `reduce` over credits. -/
def creditosDe (s : SemestreGrupo) : ℚ :=
  s.cursos.foldl (fun sum c => sum + c.curso.creditos) 0

/-- The alerts one iteration of the `forEach` at lines 294-317 pushes, in
push order: low academic load (`creditosSemestre < 12`), failed courses
(`cursosReprobados > 0`), and low approval percentage
(`porcentajeAprobacion < 75 && cursos.length > 0`). -/
def alertasDeSemestre (s : SemestreGrupo) : List Alerta :=
  (if creditosDe s < 12 then [Alerta.cargaBaja s.descripcion (creditosDe s)] else [])
  ++ (if 0 < reprobadosDe s then [Alerta.reprobados s.descripcion (reprobadosDe s)] else [])
  ++ (let porcentajeAprobacion :=
        if 0 < s.cursos.length then ((aprobadosDe s : ℚ) / (s.cursos.length : ℚ)) * 100 else 0
      if porcentajeAprobacion < 75 ∧ 0 < s.cursos.length then
        [Alerta.bajoPorcentaje s.descripcion porcentajeAprobacion]
      else [])

/-- The record returned by `_validarProgresionAcademica`.
(`totalCreditosPrograma`, declared at line 292, is never used or returned.) -/
structure ValidacionProgresion where
  nivel : String
  alertas : List Alerta
  observaciones : List String
  semestresBajoCursos : ℕ
  semestresConReprobados : ℕ
  requiereAtencion : Bool
  recomendaciones : List String
deriving DecidableEq, Repr

/-- `ValidacionService._generarRecomendaciones`
(`validacion.service.js`, lines 378-401): category-keyed fixed
recommendations, with a positive-reinforcement fallback when none applies. -/
def _generarRecomendaciones (alertas : List Alerta) (semestresConReprobados : ℕ) :
    List String :=
  let recomendaciones :=
    (if 0 < semestresConReprobados then
      ["Considerar repetir cursos reprobados en próximas oportunidades",
       "Solicitar tutoría académica para materias de mayor dificultad"]
     else [])
    ++ (if alertas.any Alerta.esCargaBaja then
      ["Incrementar la carga académica para mantener progresión normal"]
     else [])
    ++ (if alertas.any Alerta.esBajoPorcentaje then
      ["Revisar métodos de estudio y técnicas de aprendizaje",
       "Considerar apoyo psicopedagógico si es necesario"]
     else [])
  if recomendaciones = [] then
    ["Mantener el excelente desempeño académico",
     "Considerar participar en actividades extracurriculares"]
  else recomendaciones

/-- `ValidacionService._validarProgresionAcademica`
(`validacion.service.js`, lines 287-343).  The single `forEach` accumulates
`alertas`, `semestresBajoCursos` and `semestresConReprobados` independently;
they are modelled as a `bind` and two filtered counts.  The tier ladder and
the single observation pushed with it follow lines 320-332;
`requiereAtencion` is `alertas.length > 2` (line 340). -/
def _validarProgresionAcademica (cursosPorSemestre : List SemestreGrupo) :
    ValidacionProgresion :=
  let alertas := cursosPorSemestre.bind alertasDeSemestre
  let semestresBajoCursos :=
    (cursosPorSemestre.filter (fun s => creditosDe s < 12)).length
  let semestresConReprobados :=
    (cursosPorSemestre.filter (fun s => 0 < reprobadosDe s)).length
  let nivelProgresion :=
    if alertas.length = 0 then "EXCELENTE"
    else if alertas.length ≤ 2 then "BUENA"
    else if alertas.length ≤ 4 then "REGULAR"
    else "DEFICIENTE"
  let observaciones :=
    if alertas.length = 0 then ["Progresión académica excelente sin observaciones"]
    else if alertas.length ≤ 2 then ["Progresión académica buena con observaciones menores"]
    else if alertas.length ≤ 4 then ["Progresión académica regular, requiere atención"]
    else ["Progresión académica deficiente, requiere intervención académica"]
  { nivel := nivelProgresion
    alertas := alertas
    observaciones := observaciones
    semestresBajoCursos := semestresBajoCursos
    semestresConReprobados := semestresConReprobados
    requiereAtencion := 2 < alertas.length
    recomendaciones := _generarRecomendaciones alertas semestresConReprobados }

/-- Spec-side approval of a grouped course: its grade classifies as passed.
This equals the source's `validado` flag (line 146:
`notaFinal !== null && notaFinal >= 61`; NaN compares false). -/
def esAprobadoEstado (c : CursoAgrupado) : Bool :=
  (_determinarEstadoAprobacion c.notaFinal).aprobado

/-- Spec-side failure of a grouped course: its grade classifies as
REPROBADO. -/
def esReprobadoEstado (c : CursoAgrupado) : Bool :=
  (_determinarEstadoAprobacion c.notaFinal).codigo == "REPROBADO"

lemma esReprobado_eq (c : CursoAgrupado) :
    esReprobadoEstado c
      = (decide (c.notaFinal ≠ NotaFinal.jnullF) && !esAprobadoEstado c) := by
  cases hn : c.notaFinal with
  | jnullF => simp [esReprobadoEstado, esAprobadoEstado, _determinarEstadoAprobacion, hn]
  | nanF => simp [esReprobadoEstado, esAprobadoEstado, _determinarEstadoAprobacion, hn]
  | valF q =>
      by_cases h61 : 61 ≤ q <;>
        simp [esReprobadoEstado, esAprobadoEstado, _determinarEstadoAprobacion, hn, h61]

lemma reprobadosDe_eq (g : SemestreGrupo)
    (hg : ∀ c ∈ g.cursos, c.validado = esAprobadoEstado c) :
    reprobadosDe g = (g.cursos.filter esReprobadoEstado).length := by
  unfold reprobadosDe
  congr 1
  apply List.filter_congr
  intro c hc
  rw [hg c hc]
  exact (esReprobado_eq c).symm

lemma aprobadosDe_eq (g : SemestreGrupo)
    (hg : ∀ c ∈ g.cursos, c.validado = esAprobadoEstado c) :
    aprobadosDe g = (g.cursos.filter esAprobadoEstado).length := by
  unfold aprobadosDe
  congr 1
  apply List.filter_congr
  intro c hc
  rw [hg c hc]

lemma decide_filter_pos {α : Type} (p : α → Bool) (L : List α) :
    decide (0 < (L.filter p).length) = L.any p := by
  induction L with
  | nil => simp
  | cons x t ih => cases hp : p x <;> simp [List.filter_cons, hp, ih]

lemma any_cargaBaja_semestre (s : SemestreGrupo) :
    (alertasDeSemestre s).any Alerta.esCargaBaja = decide (creditosDe s < 12) := by
  by_cases h1 : creditosDe s < 12 <;> by_cases h2 : 0 < reprobadosDe s <;>
    by_cases h3 : (if 0 < s.cursos.length then
        ((aprobadosDe s : ℚ) / (s.cursos.length : ℚ)) * 100 else 0) < 75 ∧ 0 < s.cursos.length <;>
    simp [alertasDeSemestre, h1, h2, h3, List.any_append,
      Alerta.esCargaBaja, Alerta.esReprobados, Alerta.esBajoPorcentaje]

lemma any_reprobados_semestre (s : SemestreGrupo) :
    (alertasDeSemestre s).any Alerta.esReprobados = decide (0 < reprobadosDe s) := by
  by_cases h1 : creditosDe s < 12 <;> by_cases h2 : 0 < reprobadosDe s <;>
    by_cases h3 : (if 0 < s.cursos.length then
        ((aprobadosDe s : ℚ) / (s.cursos.length : ℚ)) * 100 else 0) < 75 ∧ 0 < s.cursos.length <;>
    simp [alertasDeSemestre, h1, h2, h3, List.any_append,
      Alerta.esCargaBaja, Alerta.esReprobados, Alerta.esBajoPorcentaje]

lemma any_bajoPorcentaje_semestre (s : SemestreGrupo) :
    (alertasDeSemestre s).any Alerta.esBajoPorcentaje
      = decide ((if 0 < s.cursos.length then
          ((aprobadosDe s : ℚ) / (s.cursos.length : ℚ)) * 100 else 0) < 75
            ∧ 0 < s.cursos.length) := by
  by_cases h1 : creditosDe s < 12 <;> by_cases h2 : 0 < reprobadosDe s <;>
    by_cases h3 : (if 0 < s.cursos.length then
        ((aprobadosDe s : ℚ) / (s.cursos.length : ℚ)) * 100 else 0) < 75 ∧ 0 < s.cursos.length <;>
    simp [alertasDeSemestre, h1, h2, h3, List.any_append,
      Alerta.esCargaBaja, Alerta.esReprobados, Alerta.esBajoPorcentaje] <;>
    (by_cases h4 : ((aprobadosDe s : ℚ) / (s.cursos.length : ℚ)) * 100 < 75 <;>
      simp [h4, Alerta.esBajoPorcentaje])

lemma etiqueta_alertas_semestre (s : SemestreGrupo) :
    ∀ a ∈ alertasDeSemestre s, a.etiqueta = s.descripcion := by
  intro a ha
  simp only [alertasDeSemestre, List.mem_append] at ha
  rcases ha with (h | h) | h <;> (split at h <;> simp_all [Alerta.etiqueta])

lemma pct_lt_75_iff (x : ℚ) : x * 100 < 75 ↔ x < 3 / 4 := by
  rw [show (75 : ℚ) = 3 / 4 * 100 by norm_num]
  exact mul_lt_mul_right (by norm_num : (0 : ℚ) < 100)

/-- C4.  On semester groups whose `validado` flags agree with the approval
classifier (as `_agruparCursosPorSemestre` builds them), the progression
evaluator emits per semester: a low-load alert exactly when the semester's
credits sum below 12, a failed-courses alert exactly when some course
classifies as REPROBADO (those semesters are also what the
`semestresConReprobados` counter counts), and — for semesters with at least
one course — a low-approval alert exactly when the passed/total ratio is
below 3/4; every alert carries its semester's descriptive label. -/
theorem validarProgresion_alertas_correcto (l : List SemestreGrupo)
    (hv : ∀ g ∈ l, ∀ c ∈ g.cursos, c.validado = esAprobadoEstado c) :
    ((_validarProgresionAcademica l).alertas = l.bind alertasDeSemestre)
    ∧ ((_validarProgresionAcademica l).semestresConReprobados
        = (l.filter (fun g => g.cursos.any esReprobadoEstado)).length)
    ∧ ∀ g ∈ l,
        ((alertasDeSemestre g).any Alerta.esCargaBaja
            = decide ((g.cursos.map (fun c => c.curso.creditos)).sum < 12))
        ∧ ((alertasDeSemestre g).any Alerta.esReprobados = g.cursos.any esReprobadoEstado)
        ∧ (g.cursos ≠ [] →
            (alertasDeSemestre g).any Alerta.esBajoPorcentaje
              = decide ((((g.cursos.filter esAprobadoEstado).length : ℚ)
                  / (g.cursos.length : ℚ)) < 3 / 4))
        ∧ (∀ a ∈ alertasDeSemestre g, a.etiqueta = g.descripcion) := by
  refine ⟨rfl, ?_, ?_⟩
  · show (l.filter (fun s => decide (0 < reprobadosDe s))).length = _
    congr 1
    apply List.filter_congr
    intro g hg
    rw [reprobadosDe_eq g (hv g hg), decide_filter_pos]
  · intro g hg
    refine ⟨?_, ?_, ?_, etiqueta_alertas_semestre g⟩
    · rw [any_cargaBaja_semestre]
      have hc : creditosDe g = (g.cursos.map (fun c => c.curso.creditos)).sum := by
        rw [creditosDe, foldl_add_eq, zero_add]
      rw [hc]
    · rw [any_reprobados_semestre, reprobadosDe_eq g (hv g hg), decide_filter_pos]
    · intro hne
      have hlen : 0 < g.cursos.length := List.length_pos.mpr hne
      rw [any_bajoPorcentaje_semestre]
      rw [Bool.eq_iff_iff]
      simp only [decide_eq_true_eq, if_pos hlen]
      rw [aprobadosDe_eq g (hv g hg)]
      constructor
      · intro h
        exact (pct_lt_75_iff _).mp h.1
      · intro h
        exact ⟨(pct_lt_75_iff _).mpr h, hlen⟩

/-- A concrete semester group whose `validado` flags agree with the
classifier: one passed course (10 credits, grade 80) and one failed course (5
credits, grade 50). -/
def grupoEjemplo : SemestreGrupo :=
  { descripcion := "1° Semestre 2023"
    cursos := [{ curso := { creditos := 10 }, notaFinal := NotaFinal.valF 80, validado := true },
               { curso := { creditos := 5 }, notaFinal := NotaFinal.valF 50, validado := false }] }

/-- C4 witness: the theorem applied to `grupoEjemplo`, discharging the
`validado`-consistency hypothesis and the nonempty-course-list hypothesis. -/
theorem validarProgresion_alertas_testigo :
    ((_validarProgresionAcademica [grupoEjemplo]).semestresConReprobados
        = ([grupoEjemplo].filter (fun g => g.cursos.any esReprobadoEstado)).length)
    ∧ ((alertasDeSemestre grupoEjemplo).any Alerta.esBajoPorcentaje
        = decide ((((grupoEjemplo.cursos.filter esAprobadoEstado).length : ℚ)
            / (grupoEjemplo.cursos.length : ℚ)) < 3 / 4)) := by
  have hv : ∀ g ∈ [grupoEjemplo], ∀ c ∈ g.cursos, c.validado = esAprobadoEstado c := by
    intro g hg c hc
    simp only [List.mem_singleton] at hg
    subst hg
    simp only [grupoEjemplo, List.mem_cons, List.not_mem_nil, or_false] at hc
    rcases hc with rfl | rfl <;> norm_num [esAprobadoEstado, _determinarEstadoAprobacion]
  have h := validarProgresion_alertas_correcto [grupoEjemplo] hv
  exact ⟨h.2.1, ((h.2.2 grupoEjemplo (by simp)).2.2.1 (by simp [grupoEjemplo]))⟩

/-- A semester contributing exactly one alert (low load): one passed course
of 10 credits with grade 80. -/
def semestreCargaBaja (d : String) : SemestreGrupo :=
  { descripcion := d
    cursos := [{ curso := { creditos := 10 }, notaFinal := NotaFinal.valF 80, validado := true }] }

/-- Five semesters, each contributing one alert. -/
def cincoSemestres : List SemestreGrupo :=
  [semestreCargaBaja "1° Semestre 2021", semestreCargaBaja "2° Semestre 2021",
   semestreCargaBaja "1° Semestre 2022", semestreCargaBaja "2° Semestre 2022",
   semestreCargaBaja "1° Semestre 2023"]

lemma alertas_semestreCargaBaja (d : String) :
    alertasDeSemestre (semestreCargaBaja d) = [Alerta.cargaBaja d 10] := by
  have hc : creditosDe (semestreCargaBaja d) = 10 := by
    simp [creditosDe, semestreCargaBaja]
  have hr : reprobadosDe (semestreCargaBaja d) = 0 := by
    simp [reprobadosDe, semestreCargaBaja, List.filter]
  have ha : aprobadosDe (semestreCargaBaja d) = 1 := by
    simp [aprobadosDe, semestreCargaBaja, List.filter]
  have hl : (semestreCargaBaja d).cursos.length = 1 := by
    simp [semestreCargaBaja]
  simp only [alertasDeSemestre, hc, hr, ha, hl]
  norm_num
  rfl

/-- C5.  The progression tier is a function of the total alert count — 0
alerts EXCELENTE, 1-2 BUENA, 3-4 REGULAR, 5 or more DEFICIENTE — and
`requiereAtencion` holds exactly when the count exceeds 2; five semesters
each contributing one alert yield tier DEFICIENTE with attention required. -/
theorem nivelProgresion_correcto :
    (∀ l : List SemestreGrupo,
      ((_validarProgresionAcademica l).nivel
        = (if (_validarProgresionAcademica l).alertas.length = 0 then "EXCELENTE"
           else if (_validarProgresionAcademica l).alertas.length ≤ 2 then "BUENA"
           else if (_validarProgresionAcademica l).alertas.length ≤ 4 then "REGULAR"
           else "DEFICIENTE"))
      ∧ ((_validarProgresionAcademica l).requiereAtencion
          = decide (2 < (_validarProgresionAcademica l).alertas.length)))
    ∧ ((_validarProgresionAcademica cincoSemestres).alertas.length = 5
      ∧ (_validarProgresionAcademica cincoSemestres).nivel = "DEFICIENTE"
      ∧ (_validarProgresionAcademica cincoSemestres).requiereAtencion = true) := by
  have hgen : ∀ l : List SemestreGrupo,
      ((_validarProgresionAcademica l).nivel
        = (if (_validarProgresionAcademica l).alertas.length = 0 then "EXCELENTE"
           else if (_validarProgresionAcademica l).alertas.length ≤ 2 then "BUENA"
           else if (_validarProgresionAcademica l).alertas.length ≤ 4 then "REGULAR"
           else "DEFICIENTE"))
      ∧ ((_validarProgresionAcademica l).requiereAtencion
          = decide (2 < (_validarProgresionAcademica l).alertas.length)) :=
    fun l => ⟨rfl, rfl⟩
  refine ⟨hgen, ?_, ?_, ?_⟩
  · show (cincoSemestres.bind alertasDeSemestre).length = 5
    simp [cincoSemestres, alertas_semestreCargaBaja]
  · have hlen : (_validarProgresionAcademica cincoSemestres).alertas.length = 5 := by
      show (cincoSemestres.bind alertasDeSemestre).length = 5
      simp [cincoSemestres, alertas_semestreCargaBaja]
    rw [(hgen cincoSemestres).1, hlen]
    norm_num
  · have hlen : (_validarProgresionAcademica cincoSemestres).alertas.length = 5 := by
      show (cincoSemestres.bind alertasDeSemestre).length = 5
      simp [cincoSemestres, alertas_semestreCargaBaja]
    rw [(hgen cincoSemestres).2, hlen]
    norm_num

lemma reprobados_alert_count (l : List SemestreGrupo) :
    (l.bind alertasDeSemestre).any Alerta.esReprobados
      = decide (0 < (l.filter (fun s => 0 < reprobadosDe s)).length) := by
  induction l with
  | nil => simp
  | cons g t ih =>
      by_cases hg : 0 < reprobadosDe g <;>
        simp [List.cons_bind, List.any_append, any_reprobados_semestre, hg, ih,
          List.filter_cons]

lemma alertas_nil_of_none (alertas : List Alerta)
    (h1 : alertas.any Alerta.esCargaBaja = false)
    (h2 : alertas.any Alerta.esReprobados = false)
    (h3 : alertas.any Alerta.esBajoPorcentaje = false) :
    alertas = [] := by
  cases alertas with
  | nil => rfl
  | cons a t =>
      cases a <;>
        simp [Alerta.esCargaBaja, Alerta.esReprobados, Alerta.esBajoPorcentaje] at h1 h2 h3

lemma generarRecomendaciones_spec (alertas : List Alerta) (scr : ℕ) :
    (_generarRecomendaciones alertas scr ≠ [])
    ∧ ((0 < scr) ↔
        ("Considerar repetir cursos reprobados en próximas oportunidades"
            ∈ _generarRecomendaciones alertas scr
          ∧ "Solicitar tutoría académica para materias de mayor dificultad"
            ∈ _generarRecomendaciones alertas scr))
    ∧ ((alertas.any Alerta.esCargaBaja = true) ↔
        "Incrementar la carga académica para mantener progresión normal"
          ∈ _generarRecomendaciones alertas scr)
    ∧ ((alertas.any Alerta.esBajoPorcentaje = true) ↔
        ("Revisar métodos de estudio y técnicas de aprendizaje"
            ∈ _generarRecomendaciones alertas scr
          ∧ "Considerar apoyo psicopedagógico si es necesario"
            ∈ _generarRecomendaciones alertas scr))
    ∧ ((scr = 0 ∧ alertas.any Alerta.esCargaBaja = false
          ∧ alertas.any Alerta.esBajoPorcentaje = false)
        ↔ _generarRecomendaciones alertas scr
            = ["Mantener el excelente desempeño académico",
               "Considerar participar en actividades extracurriculares"]) := by
  by_cases h1 : 0 < scr <;>
    by_cases h2 : alertas.any Alerta.esCargaBaja <;>
      by_cases h3 : alertas.any Alerta.esBajoPorcentaje <;>
        simp [_generarRecomendaciones, h1, h2, h3, Nat.not_lt, Nat.le_zero,
          Bool.not_eq_true, Nat.pos_iff_ne_zero] <;>
        omega

/-- C10.  The progression evaluator's recommendation list is never empty:
failed-course alerts bring the retake and tutoring recommendations, low-load
alerts the increase-load recommendation, low-approval alerts the study-method
and psycho-pedagogical pair, and when no alert fired at all exactly the two
positive-reinforcement recommendations are returned. -/
theorem recomendaciones_correcto (l : List SemestreGrupo) :
    ((_validarProgresionAcademica l).recomendaciones ≠ [])
    ∧ (((_validarProgresionAcademica l).alertas.any Alerta.esReprobados = true) ↔
        ("Considerar repetir cursos reprobados en próximas oportunidades"
            ∈ (_validarProgresionAcademica l).recomendaciones
          ∧ "Solicitar tutoría académica para materias de mayor dificultad"
            ∈ (_validarProgresionAcademica l).recomendaciones))
    ∧ (((_validarProgresionAcademica l).alertas.any Alerta.esCargaBaja = true) ↔
        "Incrementar la carga académica para mantener progresión normal"
          ∈ (_validarProgresionAcademica l).recomendaciones)
    ∧ (((_validarProgresionAcademica l).alertas.any Alerta.esBajoPorcentaje = true) ↔
        ("Revisar métodos de estudio y técnicas de aprendizaje"
            ∈ (_validarProgresionAcademica l).recomendaciones
          ∧ "Considerar apoyo psicopedagógico si es necesario"
            ∈ (_validarProgresionAcademica l).recomendaciones))
    ∧ (((_validarProgresionAcademica l).alertas = []) ↔
        (_validarProgresionAcademica l).recomendaciones
          = ["Mantener el excelente desempeño académico",
             "Considerar participar en actividades extracurriculares"]) := by
  have halertas : (_validarProgresionAcademica l).alertas = l.bind alertasDeSemestre := rfl
  have hrec : (_validarProgresionAcademica l).recomendaciones
      = _generarRecomendaciones (l.bind alertasDeSemestre)
          ((l.filter (fun s => 0 < reprobadosDe s)).length) := rfl
  rw [halertas, hrec]
  set A := l.bind alertasDeSemestre with hA
  set S := (l.filter (fun s => 0 < reprobadosDe s)).length with hS
  have hg := generarRecomendaciones_spec A S
  have hrepr : (A.any Alerta.esReprobados = true) ↔ 0 < S := by
    rw [hA, hS, reprobados_alert_count]
    simp
  refine ⟨hg.1, ?_, hg.2.2.1, hg.2.2.2.1, ?_⟩
  · rw [hrepr]
    exact hg.2.1
  · constructor
    · intro hnil
      apply (hg.2.2.2.2).mp
      have h2 : A.any Alerta.esCargaBaja = false := by rw [hnil]; rfl
      have h3 : A.any Alerta.esBajoPorcentaje = false := by rw [hnil]; rfl
      have hS0 : S = 0 := by
        by_contra hne
        have hpos := hrepr.mpr (Nat.pos_of_ne_zero hne)
        rw [hnil] at hpos
        simp at hpos
      exact ⟨hS0, h2, h3⟩
    · intro hfall
      obtain ⟨hS0, h2, h3⟩ := (hg.2.2.2.2).mpr hfall
      have hr : A.any Alerta.esReprobados = false := by
        by_cases hb : A.any Alerta.esReprobados = true
        · exact absurd (hrepr.mp hb) (by omega)
        · simpa using hb
      exact alertas_nil_of_none A h2 hr h3

/-! ### Per-semester retrieval and its input validation (for C9) -/

/-- A row of the `semestres` table (the fields the service reads). -/
structure Semestre where
  id : ℤ
  anio : ℤ
  numero_semestre : ℤ
deriving DecidableEq, Repr

/-- A row of `inscripciones` joined with its course's credits and its grade
records, as the `findAll` at lines 50-68 returns it. -/
structure InscripcionDb where
  id_estudiante : ℤ
  id_semestre : ℤ
  creditos : ℚ
  calificaciones : List Calificacion
deriving DecidableEq, Repr

/-- The data snapshot the data-access collaborator hands the service. -/
structure Db where
  semestres : List Semestre
  estudiantes : List ℤ
  inscripciones : List InscripcionDb
deriving DecidableEq, Repr

/-- The distinguishable failures thrown by
`obtenerCalificacionesPorSemestre` and caught into its
`{success:false, mensaje}` result.  Each constructor corresponds to one
thrown message. -/
inductive ErrorCal where
  | parametrosRequeridos : ErrorCal
  | numeroSemestreInvalido : ErrorCal
  | semestreNoEncontrado : ℤ → ℤ → ErrorCal
  | estudianteNoEncontrado : ErrorCal
deriving DecidableEq, Repr

/-- The `error.message` string of each failure, copied into the `mensaje`
field of the returned object. -/
def ErrorCal.mensaje : ErrorCal → String
  | ErrorCal.parametrosRequeridos =>
      "Parámetros requeridos: idEstudiante, año, numeroSemestre"
  | ErrorCal.numeroSemestreInvalido => "Número de semestre debe ser 1 o 2"
  | ErrorCal.semestreNoEncontrado n a =>
      "Semestre " ++ toString n ++ "/" ++ toString a ++ " no encontrado"
  | ErrorCal.estudianteNoEncontrado => "Estudiante no encontrado"

/-- Result of `obtenerCalificacionesPorSemestre`: `exito` carries the
computed course records and statistics (display-only report fields are
omitted); `fallo` is the `{success:false, ...}` branch. -/
inductive ResultadoCal where
  | exito : List CursoConCalificaciones → Estadisticas → ResultadoCal
  | fallo : ErrorCal → ResultadoCal
deriving DecidableEq, Repr

/-- `CalificacionService.obtenerCalificacionesPorSemestre`
(`calificacion.service.js`, lines 20-142), over an explicit data snapshot.
Parameters arrive as `Option ℤ` (`none` models a missing/undefined
argument); the JavaScript falsiness test `!x` on a number also rejects 0,
modelled by the explicit `= 0` checks.  Steps, in source order: validate
parameters, reject a semester number outside {1, 2}, resolve the semester by
(year, number), resolve the student, filter the student's enrollments in
that semester, compute each course's final grade and approval state, and the
semester statistics.  Thrown errors surface as the `fallo` branch. -/
def obtenerCalificacionesPorSemestre (db : Db)
    (idEstudiante anio numeroSemestre : Option ℤ) : ResultadoCal :=
  match idEstudiante, anio, numeroSemestre with
  | some idE, some a, some n =>
      if idE = 0 ∨ a = 0 ∨ n = 0 then
        ResultadoCal.fallo ErrorCal.parametrosRequeridos
      else if n ≠ 1 ∧ n ≠ 2 then
        ResultadoCal.fallo ErrorCal.numeroSemestreInvalido
      else
        match db.semestres.find? (fun s => s.anio == a && s.numero_semestre == n) with
        | none => ResultadoCal.fallo (ErrorCal.semestreNoEncontrado n a)
        | some semestre =>
            if ¬ db.estudiantes.contains idE then
              ResultadoCal.fallo ErrorCal.estudianteNoEncontrado
            else
              let inscripciones := db.inscripciones.filter
                (fun i => i.id_estudiante == idE && i.id_semestre == semestre.id)
              let cursos := inscripciones.map
                (fun i => procesarInscripcion
                  { creditos := i.creditos, calificaciones := i.calificaciones })
              ResultadoCal.exito cursos (_calcularEstadisticasGenerales cursos)
  | _, _, _ => ResultadoCal.fallo ErrorCal.parametrosRequeridos

/-- C9.  Retrieval fails fast on invalid input with a distinguishable
failure: a missing (or falsy) student id, year or semester number yields the
required-parameters failure with a result independent of the data snapshot
(no lookup or aggregation happens); a semester number outside {1, 2} yields
the invalid-semester-number failure, likewise snapshot-independent; an
unresolved (year, number) yields the semester-not-found failure; an unknown
student yields the student-not-found failure. -/
theorem obtenerCalificaciones_validacion (db db' : Db) (idE a n : Option ℤ) :
    ((idE = none ∨ idE = some 0 ∨ a = none ∨ a = some 0 ∨ n = none ∨ n = some 0) →
      (obtenerCalificacionesPorSemestre db idE a n
          = ResultadoCal.fallo ErrorCal.parametrosRequeridos
        ∧ obtenerCalificacionesPorSemestre db idE a n
            = obtenerCalificacionesPorSemestre db' idE a n))
    ∧ (∀ i y m : ℤ, i ≠ 0 → y ≠ 0 → m ≠ 0 → m ≠ 1 → m ≠ 2 →
        (obtenerCalificacionesPorSemestre db (some i) (some y) (some m)
            = ResultadoCal.fallo ErrorCal.numeroSemestreInvalido
          ∧ obtenerCalificacionesPorSemestre db (some i) (some y) (some m)
              = obtenerCalificacionesPorSemestre db' (some i) (some y) (some m)))
    ∧ (∀ i y m : ℤ, i ≠ 0 → y ≠ 0 → (m = 1 ∨ m = 2) →
        db.semestres.find? (fun s => s.anio == y && s.numero_semestre == m) = none →
        obtenerCalificacionesPorSemestre db (some i) (some y) (some m)
          = ResultadoCal.fallo (ErrorCal.semestreNoEncontrado m y))
    ∧ (∀ i y m : ℤ, ∀ sem : Semestre, i ≠ 0 → y ≠ 0 → (m = 1 ∨ m = 2) →
        db.semestres.find? (fun s => s.anio == y && s.numero_semestre == m) = some sem →
        db.estudiantes.contains i = false →
        obtenerCalificacionesPorSemestre db (some i) (some y) (some m)
          = ResultadoCal.fallo ErrorCal.estudianteNoEncontrado) := by
  refine ⟨?_, ?_, ?_, ?_⟩
  · intro h
    have hboth : ∀ d : Db, obtenerCalificacionesPorSemestre d idE a n
        = ResultadoCal.fallo ErrorCal.parametrosRequeridos := by
      intro d
      cases idE with
      | none => rfl
      | some i =>
          cases a with
          | none => rfl
          | some y =>
              cases n with
              | none => rfl
              | some m =>
                  have hz : i = 0 ∨ y = 0 ∨ m = 0 := by
                    rcases h with h | h | h | h | h | h <;> simp_all
                  simp only [obtenerCalificacionesPorSemestre, if_pos hz]
    exact ⟨hboth db, (hboth db).trans (hboth db').symm⟩
  · intro i y m hi hy h0 h1 h2
    have hz : ¬(i = 0 ∨ y = 0 ∨ m = 0) := by tauto
    have hboth : ∀ d : Db, obtenerCalificacionesPorSemestre d (some i) (some y) (some m)
        = ResultadoCal.fallo ErrorCal.numeroSemestreInvalido := by
      intro d
      simp only [obtenerCalificacionesPorSemestre, if_neg hz, if_pos (And.intro h1 h2)]
    exact ⟨hboth db, (hboth db).trans (hboth db').symm⟩
  · intro i y m hi hy hm hfind
    have hz : ¬(i = 0 ∨ y = 0 ∨ m = 0) := by
      rcases hm with rfl | rfl <;> tauto
    have h12 : ¬(m ≠ 1 ∧ m ≠ 2) := by tauto
    simp only [obtenerCalificacionesPorSemestre, if_neg hz, if_neg h12, hfind]
  · intro i y m sem hi hy hm hfind hcont
    have hz : ¬(i = 0 ∨ y = 0 ∨ m = 0) := by
      rcases hm with rfl | rfl <;> tauto
    have h12 : ¬(m ≠ 1 ∧ m ≠ 2) := by tauto
    simp only [obtenerCalificacionesPorSemestre, if_neg hz, if_neg h12, hfind]
    simp [hcont]
    simpa using hcont

/-- A concrete data snapshot: semester 1/2023, student 7, one enrollment. -/
def dbEjemplo : Db :=
  { semestres := [{ id := 1, anio := 2023, numero_semestre := 1 }]
    estudiantes := [7]
    inscripciones := [{ id_estudiante := 7, id_semestre := 1, creditos := 4,
                        calificaciones := [⟨JNum.jval 90, JNum.jval 100⟩] }] }

/-- C9 witness: the validation theorem applied to concrete inputs — a
missing student id, a semester number 3, an unknown year 2024 and an unknown
student 9 each produce their distinguishable failure. -/
theorem obtenerCalificaciones_validacion_testigo :
    (obtenerCalificacionesPorSemestre dbEjemplo none (some 2023) (some 1)
        = ResultadoCal.fallo ErrorCal.parametrosRequeridos)
    ∧ (obtenerCalificacionesPorSemestre dbEjemplo (some 7) (some 2023) (some 3)
        = ResultadoCal.fallo ErrorCal.numeroSemestreInvalido)
    ∧ (obtenerCalificacionesPorSemestre dbEjemplo (some 7) (some 2024) (some 1)
        = ResultadoCal.fallo (ErrorCal.semestreNoEncontrado 1 2024))
    ∧ (obtenerCalificacionesPorSemestre dbEjemplo (some 9) (some 2023) (some 1)
        = ResultadoCal.fallo ErrorCal.estudianteNoEncontrado) := by
  refine ⟨?_, ?_, ?_, ?_⟩
  · exact ((obtenerCalificaciones_validacion dbEjemplo dbEjemplo none (some 2023) (some 1)).1
      (Or.inl rfl)).1
  · exact ((obtenerCalificaciones_validacion dbEjemplo dbEjemplo (some 7) (some 2023)
      (some 3)).2.1 7 2023 3 (by norm_num) (by norm_num) (by norm_num) (by norm_num)
      (by norm_num)).1
  · exact (obtenerCalificaciones_validacion dbEjemplo dbEjemplo (some 7) (some 2024)
      (some 1)).2.2.1 7 2024 1 (by norm_num) (by norm_num) (Or.inl rfl)
      (by simp [dbEjemplo, List.find?])
  · exact (obtenerCalificaciones_validacion dbEjemplo dbEjemplo (some 9) (some 2023)
      (some 1)).2.2.2 9 2023 1 ⟨1, 2023, 1⟩ (by norm_num) (by norm_num) (Or.inl rfl)
      (by simp [dbEjemplo, List.find?]) (by simp [dbEjemplo])

/-- C10 witness: on a concrete input the recommendation list is nonempty. -/
theorem recomendaciones_testigo :
    (_validarProgresionAcademica [grupoEjemplo]).recomendaciones ≠ [] :=
  (recomendaciones_correcto [grupoEjemplo]).1
